import Mathlib

/-!
Verification of the standalone-routes migration
(`packages/core/schematics/ng-generate/standalone-routes/to-standalone.ts` and
`util.ts`) against its specification.

The TypeScript AST is shallowly embedded as the inductive `Node`: every
constructor carries the byte span (`pos`/`end`) of the node in its file, and
the children of each node mirror the fields the migration inspects.  External
collaborators (the TypeScript type checker, the template type checker with its
component metadata, the node-to-file mapping maintained by parent pointers at
runtime, and the pretty printer) are modelled as function-valued structures,
exactly at the interface the migration consumes.

The change tracker (`utils/change_tracker.ts`) is not part of the sources
under study; it is modelled from the specification, see `recordChanges` below.
-/

/-- Byte range `[start, stop)` of a node in the original text of its file. -/
structure Span where
  start : Nat
  stop : Nat

/-- Shallow embedding of the TypeScript AST nodes used by the migration.
Mirrors the runtime object model: a single node type, with recognizer
functions (`isIdentifier`, ...) dispatching on the constructor exactly like
`ts.isIdentifier` dispatches on `node.kind`. -/
inductive Node where
  | identifier (span : Span) (text : String)
  | stringLiteral (span : Span) (text : String)
  | propertyAssignment (span : Span) (name : Node) (initializer : Node)
  | shorthandPropertyAssignment (span : Span) (name : Node)
  | spreadAssignment (span : Span) (expr : Node)
  | objectLiteral (span : Span) (properties : List Node)
  | arrayLiteral (span : Span) (elements : List Node)
  | propertyAccess (span : Span) (expression : Node) (name : Node)
  | callExpression (span : Span) (expression : Node) (arguments : List Node)
  | importDeclaration (span : Span)
  | classDeclaration (span : Span) (name : Option Node)
  | arrowFunction (span : Span) (parameters : List Node) (body : Node)
  | parameter (span : Span) (text : String)

/-- A parsed source file: its name and its top-level statements. -/
structure SourceFile where
  fileName : String
  statements : List Node

/-- Models `ts.isIdentifier`. -/
def isIdentifier : Node → Bool
  | .identifier _ _ => true
  | _ => false

/-- Models `ts.isCallExpression`. -/
def isCallExpression : Node → Bool
  | .callExpression _ _ _ => true
  | _ => false

/-- Models `ts.isArrayLiteralExpression`. -/
def isArrayLiteralExpression : Node → Bool
  | .arrayLiteral _ _ => true
  | _ => false

/-- Models `ts.isObjectLiteralExpression`. -/
def isObjectLiteralExpression : Node → Bool
  | .objectLiteral _ _ => true
  | _ => false

/-- Models `ts.isClassDeclaration`. -/
def isClassDeclaration : Node → Bool
  | .classDeclaration _ _ => true
  | _ => false

/-- Models `ts.isImportDeclaration`. -/
def isImportDeclaration : Node → Bool
  | .importDeclaration _ => true
  | _ => false

/-- The `.text` of an identifier or string literal. -/
def textOf : Node → String
  | .identifier _ t => t
  | .stringLiteral _ t => t
  | _ => ""

/-- The `.name` property of a node, as in the TypeScript object model:
`undefined` (here `none`) for node kinds that have no name, such as
identifiers and literals. -/
def nodeName : Node → Option Node
  | .propertyAssignment _ nm _ => some nm
  | .shorthandPropertyAssignment _ nm => some nm
  | .propertyAccess _ _ nm => some nm
  | .classDeclaration _ nm => nm
  | _ => none

/-- The `.properties` of an object literal. -/
def propertiesOf : Node → List Node
  | .objectLiteral _ ps => ps
  | _ => []

/-- The `.elements` of an array literal. -/
def elementsOf : Node → List Node
  | .arrayLiteral _ es => es
  | _ => []

/-- The `.arguments` of a call expression. -/
def argumentsOf : Node → List Node
  | .callExpression _ _ args => args
  | _ => []

/-- The byte span of a node. -/
def spanOf : Node → Span
  | .identifier s _ => s
  | .stringLiteral s _ => s
  | .propertyAssignment s _ _ => s
  | .shorthandPropertyAssignment s _ => s
  | .spreadAssignment s _ => s
  | .objectLiteral s _ => s
  | .arrayLiteral s _ => s
  | .propertyAccess s _ _ => s
  | .callExpression s _ _ => s
  | .importDeclaration s => s
  | .classDeclaration s _ => s
  | .arrowFunction s _ _ => s
  | .parameter s _ => s

/-- A TypeScript symbol, as consumed by the migration: its `name` and its
`declarations` (which `ts.TsSymbol` exposes as possibly `undefined`). -/
structure TsSymbol where
  name : String
  declarations : Option (List Node)

/-- A TypeScript type, as consumed by the migration: only `getSymbol()`
(possibly `undefined`) is used. -/
structure TSType where
  getSymbol : Option TsSymbol

/-- The `ts.TypeChecker` operations the migration uses. Both are total
functions provided by the external compiler host. -/
structure TypeChecker where
  getSymbolAtLocation : Node → Option TsSymbol
  getTypeAtLocation : Node → TSType

/-- Component metadata as consumed by `isStandaloneComponent`: only the
`isStandalone` flag is read. -/
structure DirectiveMeta where
  isStandalone : Bool

/-- The `TemplateTypeChecker` collaborator.  `getDirectiveMetadata` takes an
`Option Node` because the call site in `migrateRoutesArray` passes
`componentDeclaration!`, a value that is `null` at runtime whenever
`findClassDeclaration` failed; the external lookup is modelled as a total
function on that nullable input. -/
structure TemplateTypeChecker where
  getDirectiveMetadata : Option Node → Option DirectiveMeta

/-- The pretty-printer collaborator: renders a synthesized node to text. -/
abbrev Printer : Type := Node → String

/-- From `util.ts`:

```
export function findClassDeclaration(reference, typeChecker) {
  return typeChecker.getTypeAtLocation(reference).getSymbol()
    ?.declarations?.find(ts.isClassDeclaration) || null;
}
```
-/
def findClassDeclaration (reference : Node) (typeChecker : TypeChecker) : Option Node :=
  match (typeChecker.getTypeAtLocation reference).getSymbol with
  | some s =>
    match s.declarations with
    | some decls => decls.find? isClassDeclaration
    | none => none
  | none => none

/-- The predicate passed to `.find` in `findLiteralProperty`:
`prop.name && ts.isIdentifier(prop.name) && prop.name.text === name`. -/
def litPropPred (name : String) (prop : Node) : Bool :=
  match nodeName prop with
  | some nm => isIdentifier nm && textOf nm == name
  | none => false

/-- From `util.ts`: `findLiteralProperty(literal, name)` returns the first
property of the object literal whose name is the identifier `name`. -/
def findLiteralProperty (literal : Node) (name : String) : Option Node :=
  (propertiesOf literal).find? (litPropPred name)

/-- From `to-standalone.ts`, `isRouterModuleCallExpression`, with the source's
operator precedence kept exactly: `sym && sym.name === "RouterModule" &&
prop === "forRoot" || prop === "forChild"` groups as
`(sym && ... && prop === "forRoot") || (prop === "forChild")`. -/
def isRouterModuleCallExpression (node : Node) (typeChecker : TypeChecker) : Bool :=
  match node with
  | .callExpression _ (.propertyAccess _ obj nameNode) _ =>
    (match typeChecker.getSymbolAtLocation obj with
     | some moduleSymbol => moduleSymbol.name == "RouterModule"
     | none => false)
      && textOf nameNode == "forRoot" || textOf nameNode == "forChild"
  | _ => false

/-- From `to-standalone.ts`, `isRouterCallExpression`. -/
def isRouterCallExpression (node : Node) (typeChecker : TypeChecker) : Bool :=
  match node with
  | .callExpression _ (.propertyAccess _ obj nameNode) _ =>
    (match typeChecker.getSymbolAtLocation obj with
     | some moduleSymbol => moduleSymbol.name == "Router"
     | none => false)
      && textOf nameNode == "resetConfig"
  | _ => false

/-- From `to-standalone.ts`, `isRouterProviderCallExpression`. -/
def isRouterProviderCallExpression (node : Node) (typeChecker : TypeChecker) : Bool :=
  match node with
  | .callExpression _ (.identifier s t) _ =>
    (match typeChecker.getSymbolAtLocation (.identifier s t) with
     | some moduleSymbol => moduleSymbol.name == "provideRouter"
     | none => false)
  | _ => false

/-- The runtime `TypeError` raised by `ts.isArrayLiteralExpression(undefined)`
when a recognized call has no argument (`node.arguments[0]` is `undefined`,
and the recognizer reads `.kind` from it). -/
def undefinedKindTypeError : String :=
  "TypeError: Cannot read properties of undefined (reading kind)"

/-- The body of the `walk` callback in `findRoutesArrayToMigrate`, applied to
one visited node: a recognized route-registration call contributes its first
argument when that argument is an array literal; a recognized call with no
argument raises a `TypeError` (see `undefinedKindTypeError`). -/
def visitNode (typeChecker : TypeChecker) (node : Node) : Except String (List Node) :=
  if isCallExpression node then
    if isRouterModuleCallExpression node typeChecker
        || isRouterProviderCallExpression node typeChecker
        || isRouterCallExpression node typeChecker then
      match (argumentsOf node).head? with
      | some arg => Except.ok (if isArrayLiteralExpression arg then [arg] else [])
      | none => Except.error undefinedKindTypeError
    else Except.ok []
  else Except.ok []

mutual

/-- All nodes of a subtree in depth-first preorder (node before children,
children in syntactic order): the visit order of the recursive
`forEachChild`-driven `walk` in `findRoutesArrayToMigrate`. -/
def preorder : Node → List Node
  | .identifier s t => [.identifier s t]
  | .stringLiteral s t => [.stringLiteral s t]
  | .propertyAssignment s nm ini =>
    .propertyAssignment s nm ini :: (preorder nm ++ preorder ini)
  | .shorthandPropertyAssignment s nm =>
    .shorthandPropertyAssignment s nm :: preorder nm
  | .spreadAssignment s e => .spreadAssignment s e :: preorder e
  | .objectLiteral s ps => .objectLiteral s ps :: preorderList ps
  | .arrayLiteral s es => .arrayLiteral s es :: preorderList es
  | .propertyAccess s e nm => .propertyAccess s e nm :: (preorder e ++ preorder nm)
  | .callExpression s f args => .callExpression s f args :: (preorder f ++ preorderList args)
  | .importDeclaration s => [.importDeclaration s]
  | .classDeclaration s nm => .classDeclaration s nm :: preorderOpt nm
  | .arrowFunction s ps b => .arrowFunction s ps b :: (preorderList ps ++ preorder b)
  | .parameter s t => [.parameter s t]

/-- Preorder traversal of an optional child. -/
def preorderOpt : Option Node → List Node
  | some n => preorder n
  | none => []

/-- Preorder traversal of a list of sibling nodes. -/
def preorderList : List Node → List Node
  | [] => []
  | n :: rest => preorder n ++ preorderList rest

end

/-- Sequential application of `visitNode` to a list of nodes, concatenating
the collected arrays and propagating the first raised error, exactly as the
thrown `TypeError` aborts the recursive walk. -/
def visitAll (typeChecker : TypeChecker) : List Node → Except String (List Node)
  | [] => Except.ok []
  | n :: rest =>
    match visitNode typeChecker n with
    | Except.error e => Except.error e
    | Except.ok v =>
      match visitAll typeChecker rest with
      | Except.error e => Except.error e
      | Except.ok vs => Except.ok (v ++ vs)

/-- From `to-standalone.ts`: `findRoutesArrayToMigrate(sourceFile, typeChecker)`
walks every node under the file's statements in preorder and collects the
array-literal first arguments of recognized route-registration calls. -/
def findRoutesArrayToMigrate (sourceFile : SourceFile) (typeChecker : TypeChecker) :
    Except String (List Node) :=
  visitAll typeChecker (preorderList sourceFile.statements)

/-- From `to-standalone.ts`: `isStandaloneComponent(node, templateTypeChecker)`
returns `metadata != null && metadata.isStandalone`.  The argument is the
nullable value produced by the `componentDeclaration!` assertion at the call
site. -/
def isStandaloneComponent (node : Option Node) (templateTypeChecker : TemplateTypeChecker) :
    Bool :=
  match templateTypeChecker.getDirectiveMetadata node with
  | some metadata => metadata.isStandalone
  | none => false

/-- Span used for synthesized (factory-created) nodes, which carry no position
in the original text. -/
def synthSpan : Span := ⟨0, 0⟩

/-- The `loadComponent` property assignment synthesized by `migrateRoutesArray`
with `ts.factory`:
`loadComponent: () => import("<file of decl>").then(m => m.<ClassName>)`.
`getSourceFile` models the runtime `node.getSourceFile()` parent-pointer walk;
the class name comes from `componentDeclaration.name!`. -/
def createLoadComponent (decl : Node) (getSourceFile : Node → SourceFile) : Node :=
  Node.propertyAssignment synthSpan (Node.identifier synthSpan "loadComponent")
    (Node.arrowFunction synthSpan []
      (Node.callExpression synthSpan
        (Node.propertyAccess synthSpan
          (Node.callExpression synthSpan (Node.identifier synthSpan "import")
            [Node.stringLiteral synthSpan (getSourceFile decl).fileName])
          (Node.identifier synthSpan "then"))
        [Node.arrowFunction synthSpan [Node.parameter synthSpan "m"]
          (Node.propertyAccess synthSpan (Node.identifier synthSpan "m")
            ((nodeName decl).getD (Node.identifier synthSpan "")))]))

/-- A logical edit accumulated by the change tracker: `replaceNode(node, new)`
or `removeNode(node)` (the two operations `migrateRoutesArray` uses). -/
inductive TrackedOp where
  | replaceNode (node : Node) (newNode : Node)
  | removeNode (node : Node)

/-- The loop body of `migrateRoutesArray` for one element of the routes array:
the replace operations it schedules, paired with the import declarations it
pushes onto `importsToRemove`.

```
if (ts.isObjectLiteralExpression(route)) {
  const component = findLiteralProperty(route, "component");
  if (component) {
    if (ts.isIdentifier(component)) {
      const componentDeclaration = findClassDeclaration(component, typeChecker);
      if (!isStandaloneComponent(componentDeclaration!, templateTypeChecker)) continue;
      if (componentDeclaration) {
        ... tracker.replaceNode(component, loadComponent);
        importsToRemove.push(...componentDeclaration.getSourceFile()
          .statements.filter(ts.isImportDeclaration));
      }
    }
  }
}
```
-/
def migrateRoute (route : Node) (typeChecker : TypeChecker)
    (templateTypeChecker : TemplateTypeChecker) (getSourceFile : Node → SourceFile) :
    List TrackedOp × List Node :=
  if isObjectLiteralExpression route then
    match findLiteralProperty route "component" with
    | some component =>
      if isIdentifier component then
        let componentDeclaration := findClassDeclaration component typeChecker
        if !(isStandaloneComponent componentDeclaration templateTypeChecker) then
          ([], [])
        else
          match componentDeclaration with
          | some decl =>
            ([TrackedOp.replaceNode component (createLoadComponent decl getSourceFile)],
             (getSourceFile decl).statements.filter isImportDeclaration)
          | none => ([], [])
      else ([], [])
    | none => ([], [])
  else ([], [])

/-- From `to-standalone.ts`: `migrateRoutesArray` iterates the elements of the
routes array, scheduling the replace operations in route order, and afterwards
schedules a `removeNode` for every collected import declaration. -/
def migrateRoutesArray (routesArray : Node) (typeChecker : TypeChecker)
    (templateTypeChecker : TemplateTypeChecker) (getSourceFile : Node → SourceFile) :
    List TrackedOp :=
  let results := (elementsOf routesArray).map
    (fun route => migrateRoute route typeChecker templateTypeChecker getSourceFile)
  ((results.map Prod.fst).flatten) ++ ((results.map Prod.snd).flatten).map TrackedOp.removeNode

/-- A resolved textual edit, as handed to the external apply layer:
`{start, removeLength, text}` anchored to offsets in the original text. -/
structure Edit where
  start : Nat
  removeLength : Nat
  text : String

/-- End offset of the byte range an edit removes. -/
def editStop (e : Edit) : Nat := e.start + e.removeLength

/-- The node whose byte range anchors a tracked operation. -/
def opAnchor : TrackedOp → Node
  | .replaceNode n _ => n
  | .removeNode n => n

/-- Modelled from the spec: resolving one tracked operation to an edit record.
A replace keeps the original node's range and carries the pretty-printed
synthesized node; a removal carries empty text. -/
def opToEdit (printer : Printer) : TrackedOp → Edit
  | .replaceNode n newNode =>
    ⟨(spanOf n).start, (spanOf n).stop - (spanOf n).start, printer newNode⟩
  | .removeNode n =>
    ⟨(spanOf n).start, (spanOf n).stop - (spanOf n).start, ""⟩

/-- Two edits have the same exact byte range. -/
def sameRangeB (a b : Edit) : Bool :=
  a.start == b.start && a.removeLength == b.removeLength

/-- Two edits have overlapping byte ranges (nonempty intersection of the
half-open intervals). -/
def overlapsB (a b : Edit) : Bool :=
  decide (a.start < editStop b) && decide (b.start < editStop a)

/-- Insert an edit into a list sorted by start offset, before any edit with an
equal or larger start (so the overall sort is stable). -/
def insertByStart (e : Edit) : List Edit → List Edit
  | [] => [e]
  | f :: rest => if e.start ≤ f.start then e :: f :: rest else f :: insertByStart e rest

/-- Modelled from the spec: sort the resolved edits of one file by ascending
start offset (stable insertion sort). -/
def sortByStart : List Edit → List Edit
  | [] => []
  | e :: rest => insertByStart e (sortByStart rest)

/-- Modelled from the spec: for several operations on the same exact byte
range, the last-scheduled one wins; earlier duplicates are dropped. -/
def dedupSameRange : List Edit → List Edit
  | [] => []
  | e :: rest =>
    if rest.any (fun f => sameRangeB e f) then dedupSameRange rest
    else e :: dedupSameRange rest

/-- Every pair of edits in the list is non-overlapping. -/
def nonOverlappingB : List Edit → Bool
  | [] => true
  | e :: rest => rest.all (fun f => !overlapsB e f) && nonOverlappingB rest

/-- Modelled from the spec (change tracker, `recordChanges`, per file): sort by
start offset, drop earlier duplicates of an exact range, and fail loudly on a
remaining overlap between distinct ranges (a conflicting-edit programming
defect must not silently corrupt output). -/
def processFileOps (printer : Printer) (ops : List TrackedOp) : Except String (List Edit) :=
  let deduped := dedupSameRange (sortByStart (ops.map (opToEdit printer)))
  if nonOverlappingB deduped then Except.ok deduped
  else Except.error "Conflicting edits scheduled for overlapping byte ranges"

/-- The `NgtscProgram` collaborator as consumed by `toLazyStandaloneRoutes`:
the two checkers and the runtime node-to-source-file mapping
(`node.getSourceFile()`). -/
structure NgtscProgram where
  typeChecker : TypeChecker
  templateTypeChecker : TemplateTypeChecker
  getSourceFile : Node → SourceFile

/-- The file an operation's anchor node belongs to. -/
def fileOf (program : NgtscProgram) (op : TrackedOp) : String :=
  (program.getSourceFile (opAnchor op)).fileName

/-- The distinct file names of a list, in first-appearance order. -/
def distinctFiles : List String → List String
  | [] => []
  | s :: rest => s :: (distinctFiles rest).filter (fun t => t != s)

/-- The mapping from file name to its ordered sequence of edits: the sole
externally visible output of the migration. -/
abbrev ChangesByFile : Type := List (String × List Edit)

/-- Modelled from the spec: `recordChanges` groups the pending operations by
the file of their anchor node and resolves each file's operations with
`processFileOps`. -/
def recordFiles (printer : Printer) (program : NgtscProgram) (ops : List TrackedOp) :
    List String → Except String ChangesByFile
  | [] => Except.ok []
  | fn :: rest =>
    match processFileOps printer (ops.filter (fun op => fileOf program op == fn)) with
    | Except.error e => Except.error e
    | Except.ok edits =>
      match recordFiles printer program ops rest with
      | Except.error e => Except.error e
      | Except.ok more => Except.ok ((fn, edits) :: more)

/-- Modelled from the spec: the change tracker's `recordChanges`. -/
def recordChanges (printer : Printer) (program : NgtscProgram) (ops : List TrackedOp) :
    Except String ChangesByFile :=
  recordFiles printer program ops (distinctFiles (ops.map (fileOf program)))

/-- The per-file loop of `toLazyStandaloneRoutes`: locate the route arrays of
each file and schedule the operations of `migrateRoutesArray` for each, into
one shared tracker, propagating a raised error. -/
def collectFileOps (program : NgtscProgram) : List SourceFile → Except String (List TrackedOp)
  | [] => Except.ok []
  | sf :: rest =>
    match findRoutesArrayToMigrate sf program.typeChecker with
    | Except.error e => Except.error e
    | Except.ok arrays =>
      match collectFileOps program rest with
      | Except.error e => Except.error e
      | Except.ok more =>
        Except.ok ((arrays.map (fun a =>
          migrateRoutesArray a program.typeChecker program.templateTypeChecker
            program.getSourceFile)).flatten ++ more)

/-- From `to-standalone.ts`: the whole migration run.  Walks every source
file, schedules all operations into one tracker, and returns the tracker's
recorded changes. -/
def toLazyStandaloneRoutes (sourceFiles : List SourceFile) (program : NgtscProgram)
    (printer : Printer) : Except String ChangesByFile :=
  match collectFileOps program sourceFiles with
  | Except.error e => Except.error e
  | Except.ok ops => recordChanges printer program ops

/-- Identifier `Foo` at the `component: Foo` reference in the C1 scenario. -/
def fooIdent : Node := .identifier ⟨120, 123⟩ "Foo"

/-- Name of the class `Foo` in its declaring file. -/
def fooClassName : Node := .identifier ⟨240, 243⟩ "Foo"

/-- The standalone component class `export class Foo ...` declared in
`/app/foo.component.ts`. -/
def fooClass : Node := .classDeclaration ⟨200, 320⟩ (some fooClassName)

/-- An import declaration at the top of the file declaring `Foo`. -/
def fooImport : Node := .importDeclaration ⟨0, 40⟩

/-- The file declaring `Foo`, which starts with an import declaration. -/
def fooFile : SourceFile := ⟨"/app/foo.component.ts", [fooImport, fooClass]⟩

/-- The property assignment `component: Foo`. -/
def c1ComponentProp : Node :=
  .propertyAssignment ⟨109, 123⟩ (.identifier ⟨109, 118⟩ "component") fooIdent

/-- The property assignment `path: "x"`. -/
def c1PathProp : Node :=
  .propertyAssignment ⟨97, 106⟩ (.identifier ⟨97, 101⟩ "path") (.stringLiteral ⟨103, 106⟩ "x")

/-- The route object `{ path: "x", component: Foo }`. -/
def c1RouteObject : Node := .objectLiteral ⟨95, 125⟩ [c1PathProp, c1ComponentProp]

/-- The routes array `[{ path: "x", component: Foo }]`. -/
def c1RoutesArray : Node := .arrayLiteral ⟨94, 126⟩ [c1RouteObject]

/-- The recognized registration call `provideRouter([...])`. -/
def c1Call : Node :=
  .callExpression ⟨80, 127⟩ (.identifier ⟨80, 93⟩ "provideRouter") [c1RoutesArray]

/-- The route-configuration file of the C1 scenario. -/
def c1File : SourceFile := ⟨"/app/routes.ts", [c1Call]⟩

/-- Type checker for the C1 scenario: `provideRouter` resolves to the router
entry point's symbol, and the type at `Foo` resolves to the symbol declaring
the class `Foo`. -/
def c1TypeChecker : TypeChecker where
  getSymbolAtLocation := fun n =>
    match n with
    | .identifier _ "provideRouter" => some ⟨"provideRouter", none⟩
    | .identifier _ "Foo" => some ⟨"Foo", some [fooClass]⟩
    | _ => none
  getTypeAtLocation := fun n =>
    match n with
    | .identifier _ "Foo" => ⟨some ⟨"Foo", some [fooClass]⟩⟩
    | _ => ⟨none⟩

/-- Template type checker for the C1 scenario: the class `Foo` has component
metadata with `standalone: true`; nothing else has metadata. -/
def c1TemplateTypeChecker : TemplateTypeChecker where
  getDirectiveMetadata := fun d =>
    match d with
    | some (.classDeclaration _ (some (.identifier _ "Foo"))) => some ⟨true⟩
    | _ => none

/-- Node-to-file mapping for the C1 scenario: the class and the import live in
`fooFile`; everything else is in the routes file. -/
def c1GetSourceFile : Node → SourceFile := fun n =>
  match n with
  | .classDeclaration _ _ => fooFile
  | .importDeclaration _ => fooFile
  | _ => c1File

/-- The resolved program of the C1 scenario. -/
def c1Program : NgtscProgram :=
  ⟨c1TypeChecker, c1TemplateTypeChecker, c1GetSourceFile⟩

/-- A pretty printer (contents irrelevant to the scheduled edit set). -/
def nullPrinter : Printer := fun _ => ""


/-- Identifier `Y` in the C2 scenario call `Y.forChild([...])`. -/
def yIdent : Node := .identifier ⟨10, 11⟩ "Y"

/-- The array literal passed to `Y.forChild`. -/
def c2Array : Node := .arrayLiteral ⟨21, 23⟩ []

/-- The call `Y.forChild([])`, where `Y` is not `RouterModule`. -/
def c2Call : Node :=
  .callExpression ⟨10, 24⟩ (.propertyAccess ⟨10, 20⟩ yIdent (.identifier ⟨12, 20⟩ "forChild")) [c2Array]

/-- Source file of the C2 scenario. -/
def c2File : SourceFile := ⟨"/app/c2.ts", [c2Call]⟩

/-- Type checker of the C2 scenario: the symbol bound to `Y` is named `Y`,
not `RouterModule`. -/
def c2TypeChecker : TypeChecker where
  getSymbolAtLocation := fun n =>
    match n with
    | .identifier _ "Y" => some ⟨"Y", none⟩
    | _ => none
  getTypeAtLocation := fun _ => ⟨none⟩

/-- Variable `router` of type `Router` in the C7 scenario. -/
def routerVarIdent : Node := .identifier ⟨30, 36⟩ "router"

/-- The identifier argument `someRoutesArray` (an indirection, not an inline
array literal). -/
def c7ArgIdent : Node := .identifier ⟨49, 64⟩ "someRoutesArray"

/-- The call `router.resetConfig(someRoutesArray)`. -/
def c7Call : Node :=
  .callExpression ⟨30, 65⟩
    (.propertyAccess ⟨30, 48⟩ routerVarIdent (.identifier ⟨37, 48⟩ "resetConfig")) [c7ArgIdent]

/-- Source file of the C7 scenario. -/
def c7File : SourceFile := ⟨"/app/c7.ts", [c7Call]⟩

/-- Type checker of the C7 scenario: `router` resolves to a symbol named
`Router`, so the call is recognized. -/
def c7TypeChecker : TypeChecker where
  getSymbolAtLocation := fun n =>
    match n with
    | .identifier _ "router" => some ⟨"Router", none⟩
    | _ => none
  getTypeAtLocation := fun _ => ⟨none⟩

/-- Empty array literal located by the locator in the C7 witness file. -/
def c7wArray : Node := .arrayLiteral ⟨86, 88⟩ []

/-- The call `provideRouter([])` of the C7 witness file. -/
def c7wCall : Node :=
  .callExpression ⟨72, 89⟩ (.identifier ⟨72, 85⟩ "provideRouter") [c7wArray]

/-- C7 witness file: one recognized call with an inline array literal. -/
def c7wFile : SourceFile := ⟨"/app/c7w.ts", [c7wCall]⟩

/-- Type checker of the C7 witness file. -/
def c7wTypeChecker : TypeChecker where
  getSymbolAtLocation := fun n =>
    match n with
    | .identifier _ "provideRouter" => some ⟨"provideRouter", none⟩
    | _ => none
  getTypeAtLocation := fun _ => ⟨none⟩

/-- The zero-argument recognized call `provideRouter()` of the C8
counterexample. -/
def c8Call : Node :=
  .callExpression ⟨5, 20⟩ (.identifier ⟨5, 18⟩ "provideRouter") []

/-- Source file of the C8 counterexample. -/
def c8File : SourceFile := ⟨"/app/c8.ts", [c8Call]⟩

/-- Type checker of the C8 counterexample. -/
def c8TypeChecker : TypeChecker where
  getSymbolAtLocation := fun n =>
    match n with
    | .identifier _ "provideRouter" => some ⟨"provideRouter", none⟩
    | _ => none
  getTypeAtLocation := fun _ => ⟨none⟩


/-- The member-expression value `foo.bar` of the C4 witness route's
`component` property (not a plain identifier). -/
def c4Value : Node :=
  .propertyAccess ⟨150, 157⟩ (.identifier ⟨150, 153⟩ "foo") (.identifier ⟨154, 157⟩ "bar")

/-- The C4 witness route `{ component: foo.bar }`. -/
def c4Route : Node :=
  .objectLiteral ⟨140, 160⟩
    [.propertyAssignment ⟨141, 157⟩ (.identifier ⟨141, 150⟩ "component") c4Value]

/-- The C4 witness routes array `[{ component: foo.bar }]`. -/
def c4Array : Node := .arrayLiteral ⟨139, 161⟩ [c4Route]

/-- A type checker resolving nothing. -/
def emptyTypeChecker : TypeChecker where
  getSymbolAtLocation := fun _ => none
  getTypeAtLocation := fun _ => ⟨none⟩

/-- A template type checker with no component metadata at all. -/
def emptyTemplateTypeChecker : TemplateTypeChecker where
  getDirectiveMetadata := fun _ => none

/-- A single-file node-to-file mapping for witness runs. -/
def witnessGetSourceFile : Node → SourceFile := fun _ => ⟨"/app/w.ts", []⟩

/-- Identifier `Baz` referencing a non-standalone component in the C5
witness. -/
def bazIdent : Node := .identifier ⟨170, 173⟩ "Baz"

/-- The non-standalone class `Baz`. -/
def bazClass : Node := .classDeclaration ⟨400, 500⟩ (some (.identifier ⟨410, 413⟩ "Baz"))

/-- The C5 witness route `{ component: Baz }`. -/
def c5Route : Node :=
  .objectLiteral ⟨165, 175⟩
    [.propertyAssignment ⟨166, 173⟩ (.identifier ⟨166, 175⟩ "component") bazIdent]

/-- The C5 witness routes array `[{ component: Baz }]`. -/
def c5Array : Node := .arrayLiteral ⟨164, 176⟩ [c5Route]

/-- Type checker of the C5 witness: `Baz` resolves to the class `Baz`. -/
def c5TypeChecker : TypeChecker where
  getSymbolAtLocation := fun _ => none
  getTypeAtLocation := fun n =>
    match n with
    | .identifier _ "Baz" => ⟨some ⟨"Baz", some [bazClass]⟩⟩
    | _ => ⟨none⟩

/-- Template type checker of the C5 witness: `Baz` has component metadata with
`standalone: false`. -/
def c5TemplateTypeChecker : TemplateTypeChecker where
  getDirectiveMetadata := fun d =>
    match d with
    | some (.classDeclaration _ (some (.identifier _ "Baz"))) => some ⟨false⟩
    | _ => none

/-- Two nodes anchoring the C6 witness operations, scheduled out of start
order. -/
def c6NodeLate : Node := .importDeclaration ⟨50, 60⟩

/-- The earlier-in-file anchor node of the C6 witness. -/
def c6NodeEarly : Node := .importDeclaration ⟨10, 20⟩

/-- C6 witness operations: two removals scheduled in decreasing start order. -/
def c6Ops : List TrackedOp := [.removeNode c6NodeLate, .removeNode c6NodeEarly]

/-- Program of the C6 witness: a single file owns every node. -/
def c6Program : NgtscProgram :=
  ⟨emptyTypeChecker, emptyTemplateTypeChecker, fun _ => ⟨"/app/c6.ts", []⟩⟩

/-- The recorded changes expected for the C6 witness: one file, edits sorted
by start offset. -/
def c6Expected : ChangesByFile :=
  [("/app/c6.ts", [⟨10, 10, ""⟩, ⟨50, 10, ""⟩])]

/-- Any property found by `findLiteralProperty` passed the predicate
`prop.name && ts.isIdentifier(prop.name) && prop.name.text === name`, so it
has a `.name`; no node with a `.name` is itself an identifier, hence the found
property never satisfies `ts.isIdentifier`. -/
theorem findLiteralProperty_not_identifier {literal : Node} {name : String} {p : Node}
    (h : findLiteralProperty literal name = some p) : isIdentifier p = false := by
  have hp : litPropPred name p = true :=
    List.find?_some (p := litPropPred name) (l := propertiesOf literal) h
  cases p <;> first
    | rfl
    | simp [litPropPred, nodeName] at hp

/-- The guard `ts.isIdentifier(component)` in `migrateRoutesArray` tests the
property node returned by `findLiteralProperty` (never an identifier) instead
of its initializer, so the loop body schedules nothing for any route. -/
theorem migrateRoute_eq_nil (route : Node) (typeChecker : TypeChecker)
    (templateTypeChecker : TemplateTypeChecker) (getSourceFile : Node → SourceFile) :
    migrateRoute route typeChecker templateTypeChecker getSourceFile = ([], []) := by
  unfold migrateRoute
  split
  · split
    · rename_i component hcomp
      rw [findLiteralProperty_not_identifier hcomp]
      simp
    · rfl
  · rfl

/-- Auxiliary: flattening a map whose every image is empty gives the empty
list. -/
theorem flatten_map_eq_nil {α β : Type} (l : List α) (f : α → List β)
    (hf : ∀ a ∈ l, f a = []) : (l.map f).flatten = [] := by
  induction l with
  | nil => rfl
  | cons a rest ih =>
    simp only [List.map_cons, List.flatten_cons, hf a (List.mem_cons_self a rest)]
    exact ih (fun b hb => hf b (List.mem_cons_of_mem a hb))

/-- `migrateRoutesArray` never schedules any operation: neither a replacement
nor an import removal, for any routes array and any program. -/
theorem migrateRoutesArray_eq_nil (routesArray : Node) (typeChecker : TypeChecker)
    (templateTypeChecker : TemplateTypeChecker) (getSourceFile : Node → SourceFile) :
    migrateRoutesArray routesArray typeChecker templateTypeChecker getSourceFile = [] := by
  unfold migrateRoutesArray
  have h1 : ∀ route ∈ elementsOf routesArray,
      (Prod.fst ∘ fun route =>
        migrateRoute route typeChecker templateTypeChecker getSourceFile) route = [] := by
    intro route _
    simp [migrateRoute_eq_nil]
  have h2 : ∀ route ∈ elementsOf routesArray,
      (Prod.snd ∘ fun route =>
        migrateRoute route typeChecker templateTypeChecker getSourceFile) route = [] := by
    intro route _
    simp [migrateRoute_eq_nil]
  simp only [List.map_map]
  rw [flatten_map_eq_nil _ _ h1, flatten_map_eq_nil _ _ h2]
  rfl

/-- Whatever operations a whole run collects, the list is empty (consequence
of `migrateRoutesArray_eq_nil`). -/
theorem collectFileOps_ok_eq_nil {program : NgtscProgram} :
    ∀ {sourceFiles : List SourceFile} {ops : List TrackedOp},
    collectFileOps program sourceFiles = Except.ok ops → ops = [] := by
  intro sourceFiles
  induction sourceFiles with
  | nil =>
    intro ops h
    cases h
    rfl
  | cons sf rest ih =>
    intro ops h
    unfold collectFileOps at h
    split at h
    · nomatch h
    · split at h
      · nomatch h
      · rename_i arrays _ more hmore
        cases h
        rw [ih hmore]
        rw [flatten_map_eq_nil _ _ (fun a _ => migrateRoutesArray_eq_nil a _ _ _)]
        rfl

/-- Every array collected by one visit step is an array literal standing as
the first argument of the visited node, which is a call expression. -/
theorem visitNode_ok_mem {typeChecker : TypeChecker} {n : Node} {v : List Node}
    (h : visitNode typeChecker n = Except.ok v) :
    ∀ a ∈ v, isArrayLiteralExpression a = true ∧ isCallExpression n = true ∧
      (argumentsOf n).head? = some a := by
  unfold visitNode at h
  split at h
  · split at h
    · split at h
      · rename_i arg harg
        cases h
        intro a ha
        have hcall : isCallExpression n = true := by
          cases n <;> first | rfl | simp [argumentsOf] at harg
        split at ha
        · rename_i hlit
          rw [List.mem_singleton] at ha
          subst ha
          exact ⟨hlit, hcall, harg⟩
        · nomatch ha
      · nomatch h
    · cases h
      intro a ha
      nomatch ha
  · cases h
    intro a ha
    nomatch ha

/-- Every array collected by the sequential visit of a node list is an array
literal standing as the first argument of some visited call expression. -/
theorem visitAll_ok_mem {typeChecker : TypeChecker} :
    ∀ {ns : List Node} {l : List Node}, visitAll typeChecker ns = Except.ok l →
    ∀ a ∈ l, isArrayLiteralExpression a = true ∧
      ∃ c ∈ ns, isCallExpression c = true ∧ (argumentsOf c).head? = some a := by
  intro ns
  induction ns with
  | nil =>
    intro l h
    cases h
    intro a ha
    nomatch ha
  | cons n rest ih =>
    intro l h
    unfold visitAll at h
    split at h
    · nomatch h
    · rename_i v hv
      split at h
      · nomatch h
      · rename_i vs hvs
        cases h
        intro a ha
        rcases List.mem_append.mp ha with h1 | h2
        · obtain ⟨ha1, hc, hh⟩ := visitNode_ok_mem hv a h1
          exact ⟨ha1, n, List.mem_cons_self n rest, hc, hh⟩
        · obtain ⟨ha1, c, hcmem, hrest⟩ := ih hvs a h2
          exact ⟨ha1, c, List.mem_cons_of_mem n hcmem, hrest⟩

/-- A call expression recognized as a route-registration call site: the
condition of the inner `if` of the walk callback. -/
def recognizedCallB (node : Node) (typeChecker : TypeChecker) : Bool :=
  isCallExpression node &&
    (isRouterModuleCallExpression node typeChecker
      || isRouterProviderCallExpression node typeChecker
      || isRouterCallExpression node typeChecker)

/-- One visit step returns normally whenever a recognized call has at least
one argument. -/
theorem visitNode_ok_of_args {typeChecker : TypeChecker} {n : Node}
    (h : recognizedCallB n typeChecker = true → argumentsOf n ≠ []) :
    ∃ v, visitNode typeChecker n = Except.ok v := by
  cases h1 : isCallExpression n with
  | false => exact ⟨[], by simp [visitNode, h1]⟩
  | true =>
    cases h2 : (isRouterModuleCallExpression n typeChecker
        || isRouterProviderCallExpression n typeChecker
        || isRouterCallExpression n typeChecker) with
    | false => exact ⟨[], by simp [visitNode, h1, h2]⟩
    | true =>
      have hne : argumentsOf n ≠ [] := h (by simp [recognizedCallB, h1, h2])
      cases h3 : argumentsOf n with
      | nil => exact absurd h3 hne
      | cons a as =>
        exact ⟨if isArrayLiteralExpression a then [a] else [],
          by simp [visitNode, h1, h2, h3]⟩

/-- The sequential visit returns normally whenever every recognized call among
the visited nodes has at least one argument. -/
theorem visitAll_ok_of_args {typeChecker : TypeChecker} :
    ∀ {ns : List Node},
    (∀ n ∈ ns, recognizedCallB n typeChecker = true → argumentsOf n ≠ []) →
    ∃ l, visitAll typeChecker ns = Except.ok l := by
  intro ns
  induction ns with
  | nil => exact fun _ => ⟨[], rfl⟩
  | cons n rest ih =>
    intro h
    obtain ⟨v, hv⟩ := visitNode_ok_of_args (h n (List.mem_cons_self n rest))
    obtain ⟨l, hl⟩ := ih (fun m hm => h m (List.mem_cons_of_mem n hm))
    exact ⟨v ++ l, by simp [visitAll, hv, hl]⟩

/-- Ordering relation of the recorded edit lists: non-decreasing start
offsets. -/
def startLE (a b : Edit) : Prop := a.start ≤ b.start

/-- Non-overlap relation of the recorded edit lists. -/
def notOverlap (a b : Edit) : Prop := overlapsB a b = false

/-- Membership after insertion: the inserted element or an original one. -/
theorem insertByStart_mem {e b : Edit} : ∀ {l : List Edit},
    b ∈ insertByStart e l → b = e ∨ b ∈ l := by
  intro l
  induction l with
  | nil =>
    intro h
    unfold insertByStart at h
    rw [List.mem_singleton] at h
    exact Or.inl h
  | cons f rest ih =>
    intro h
    unfold insertByStart at h
    split at h
    · rcases List.mem_cons.mp h with h1 | h2
      · exact Or.inl h1
      · exact Or.inr h2
    · rcases List.mem_cons.mp h with h1 | h2
      · exact Or.inr (h1 ▸ List.mem_cons_self f rest)
      · rcases ih h2 with h3 | h4
        · exact Or.inl h3
        · exact Or.inr (List.mem_cons_of_mem f h4)

/-- Insertion preserves sortedness by start offset. -/
theorem insertByStart_pairwise {e : Edit} : ∀ {l : List Edit},
    List.Pairwise startLE l → List.Pairwise startLE (insertByStart e l) := by
  intro l
  induction l with
  | nil => exact fun _ => List.pairwise_singleton startLE e
  | cons f rest ih =>
    intro h
    unfold insertByStart
    split
    · rename_i hle
      refine List.Pairwise.cons ?_ h
      intro b hb
      rcases List.mem_cons.mp hb with h1 | h2
      · exact h1 ▸ hle
      · exact le_trans hle (List.rel_of_pairwise_cons h h2)
    · rename_i hgt
      refine List.Pairwise.cons ?_ (ih (List.Pairwise.of_cons h))
      intro b hb
      rcases insertByStart_mem hb with h1 | h2
      · exact h1 ▸ le_of_not_le hgt
      · exact List.rel_of_pairwise_cons h h2

/-- The insertion sort of `recordChanges` produces a list sorted by start
offset. -/
theorem sortByStart_pairwise : ∀ (l : List Edit), List.Pairwise startLE (sortByStart l) := by
  intro l
  induction l with
  | nil => exact List.Pairwise.nil
  | cons e rest ih => exact insertByStart_pairwise ih

/-- De-duplication only drops elements. -/
theorem dedupSameRange_sublist : ∀ (l : List Edit), List.Sublist (dedupSameRange l) l := by
  intro l
  induction l with
  | nil => exact List.Sublist.refl []
  | cons e rest ih =>
    unfold dedupSameRange
    split
    · exact ih.trans (List.sublist_cons_self e rest)
    · exact List.Sublist.cons₂ e ih

/-- A list passing the pairwise overlap check is pairwise non-overlapping. -/
theorem nonOverlappingB_pairwise : ∀ {l : List Edit},
    nonOverlappingB l = true → List.Pairwise notOverlap l := by
  intro l
  induction l with
  | nil => exact fun _ => List.Pairwise.nil
  | cons e rest ih =>
    intro h
    unfold nonOverlappingB at h
    rw [Bool.and_eq_true] at h
    refine List.Pairwise.cons ?_ (ih h.2)
    intro b hb
    have hball := List.all_eq_true.mp h.1 b hb
    simpa [notOverlap] using hball

/-- Every file's edit list resolved by the tracker is sorted by start offset
and pairwise non-overlapping. -/
theorem processFileOps_ok_sorted {printer : Printer} {ops : List TrackedOp} {edits : List Edit}
    (h : processFileOps printer ops = Except.ok edits) :
    List.Pairwise startLE edits ∧ List.Pairwise notOverlap edits := by
  simp only [processFileOps] at h
  split at h
  · rename_i hno
    cases h
    refine ⟨?_, nonOverlappingB_pairwise hno⟩
    exact (sortByStart_pairwise _).sublist (dedupSameRange_sublist _)
  · nomatch h

/-- Each entry of the grouped change set satisfies the per-file guarantees of
`processFileOps`. -/
theorem recordFiles_ok_sorted {printer : Printer} {program : NgtscProgram}
    {ops : List TrackedOp} : ∀ {fns : List String} {m : ChangesByFile},
    recordFiles printer program ops fns = Except.ok m →
    ∀ fe ∈ m, List.Pairwise startLE fe.2 ∧ List.Pairwise notOverlap fe.2 := by
  intro fns
  induction fns with
  | nil =>
    intro m h
    cases h
    intro fe hfe
    nomatch hfe
  | cons fn rest ih =>
    intro m h
    unfold recordFiles at h
    split at h
    · nomatch h
    · rename_i edits hedits
      split at h
      · nomatch h
      · rename_i more hmore
        cases h
        intro fe hfe
        rcases List.mem_cons.mp hfe with h1 | h2
        · subst h1
          exact processFileOps_ok_sorted hedits
        · exact ih hmore fe h2

/-- The recorded change set is, per file, sorted and non-overlapping. -/
theorem recordChanges_ok_sorted {printer : Printer} {program : NgtscProgram}
    {ops : List TrackedOp} {m : ChangesByFile}
    (h : recordChanges printer program ops = Except.ok m) :
    ∀ fe ∈ m, List.Pairwise startLE fe.2 ∧ List.Pairwise notOverlap fe.2 :=
  recordFiles_ok_sorted h

/-- C1: the scenario of the spec — `const routes = [{ path: "x", component: Foo }]`
inside a recognized registration call, `Foo` a standalone component class —
is claimed to produce exactly one Replace edit turning `component: Foo` into
`loadComponent: () => import("<path-to-Foo>").then(m => m.Foo)`.  The code
disagrees: the locator does find the routes array and `Foo` is classified
standalone, yet the whole run returns an empty change set, because
`ts.isIdentifier(component)` is applied to the property node returned by
`findLiteralProperty` (never an identifier) instead of to its initializer. -/
theorem c1_standalone_scenario_schedules_no_edit :
    findRoutesArrayToMigrate c1File c1TypeChecker = Except.ok [c1RoutesArray] ∧
    isStandaloneComponent (some fooClass) c1TemplateTypeChecker = true ∧
    toLazyStandaloneRoutes [c1File] c1Program nullPrinter = Except.ok [] :=
  ⟨rfl, rfl, rfl⟩

/-- C2: the claim says a call `Y.forChild([...])` where the symbol bound to
`Y` is not named `RouterModule` yields no candidate route array.  The code
disagrees: due to the precedence defect in `isRouterModuleCallExpression`
(`sym && ... && "forRoot" || "forChild"`), any `.forChild(...)` call is
recognized, and the array literal is recorded as a candidate even though the
symbol bound to `Y` is named `Y`. -/
theorem c2_forChild_without_routerModule_is_recorded :
    c2TypeChecker.getSymbolAtLocation yIdent = some ⟨"Y", none⟩ ∧
    findRoutesArrayToMigrate c2File c2TypeChecker = Except.ok [c2Array] :=
  ⟨rfl, rfl⟩

/-- C3: the claim presupposes that some route's migration is scheduled and
asserts that a Remove edit then accompanies it for every import declaration of
the declaring file.  On the code, the premise is unsatisfiable:
`migrateRoutesArray` schedules no operation at all — no Replace and hence also
none of the claimed import Removes — for any routes array and any program,
because its `ts.isIdentifier(component)` guard can never hold. -/
theorem c3_no_migration_is_ever_scheduled (routesArray : Node) (typeChecker : TypeChecker)
    (templateTypeChecker : TemplateTypeChecker) (getSourceFile : Node → SourceFile) :
    migrateRoutesArray routesArray typeChecker templateTypeChecker getSourceFile = [] :=
  migrateRoutesArray_eq_nil routesArray typeChecker templateTypeChecker getSourceFile

/-- The premise of claim C4 about one route object, decidably: the route has a
`component` property whose value is not a plain identifier, or is an
identifier that resolves to no class declaration. -/
def componentUnresolvableB (route : Node) (typeChecker : TypeChecker) : Bool :=
  match findLiteralProperty route "component" with
  | some prop =>
    match prop with
    | .propertyAssignment _ _ ini =>
      !(isIdentifier ini) || (findClassDeclaration ini typeChecker).isNone
    | _ => true
  | none => false

/-- C4: a route whose `component` value is not a plain identifier, or whose
identifier resolves to no class declaration, is skipped — no operation
anchored inside that route is scheduled, and no error is raised
(`migrateRoutesArray` is total). -/
theorem c4_unresolvable_component_route_is_skipped (routesArray : Node)
    (typeChecker : TypeChecker) (templateTypeChecker : TemplateTypeChecker)
    (getSourceFile : Node → SourceFile) (route : Node)
    (hmem : route ∈ elementsOf routesArray)
    (hunres : componentUnresolvableB route typeChecker = true) :
    ∀ op ∈ migrateRoutesArray routesArray typeChecker templateTypeChecker getSourceFile,
      opAnchor op ∉ preorder route := by
  rw [migrateRoutesArray_eq_nil]
  intro op hop
  nomatch hop

/-- Witness for C4 at the route `{ component: foo.bar }` (a member expression,
not a plain identifier). -/
theorem c4_witness :
    componentUnresolvableB c4Route emptyTypeChecker = true ∧
    (∀ op ∈ migrateRoutesArray c4Array emptyTypeChecker emptyTemplateTypeChecker
        witnessGetSourceFile, opAnchor op ∉ preorder c4Route) :=
  ⟨rfl, c4_unresolvable_component_route_is_skipped c4Array emptyTypeChecker
    emptyTemplateTypeChecker witnessGetSourceFile c4Route
    (List.mem_singleton.mpr rfl) rfl⟩

/-- The premise of claim C5 about one route object, decidably: the route's
`component` value resolves to a class declaration that is classified
non-standalone (including the metadata-absent case, where
`isStandaloneComponent` returns false). -/
def nonStandaloneRouteB (route : Node) (typeChecker : TypeChecker)
    (templateTypeChecker : TemplateTypeChecker) : Bool :=
  match findLiteralProperty route "component" with
  | some prop =>
    match prop with
    | .propertyAssignment _ _ ini =>
      match findClassDeclaration ini typeChecker with
      | some decl => !(isStandaloneComponent (some decl) templateTypeChecker)
      | none => false
    | _ => false
  | none => false

/-- C5: `isStandaloneComponent` fails closed — absent metadata means "not
standalone" — and a route whose `component` references a non-standalone class
gets no scheduled operation anchored inside it. -/
theorem c5_non_standalone_route_is_skipped :
    (∀ (d : Option Node) (templateTypeChecker : TemplateTypeChecker),
      templateTypeChecker.getDirectiveMetadata d = none →
      isStandaloneComponent d templateTypeChecker = false) ∧
    (∀ (routesArray : Node) (typeChecker : TypeChecker)
      (templateTypeChecker : TemplateTypeChecker) (getSourceFile : Node → SourceFile)
      (route : Node), route ∈ elementsOf routesArray →
      nonStandaloneRouteB route typeChecker templateTypeChecker = true →
      ∀ op ∈ migrateRoutesArray routesArray typeChecker templateTypeChecker getSourceFile,
        opAnchor op ∉ preorder route) := by
  constructor
  · intro d templateTypeChecker h
    unfold isStandaloneComponent
    rw [h]
  · intro routesArray typeChecker templateTypeChecker getSourceFile route _ _
    rw [migrateRoutesArray_eq_nil]
    intro op hop
    nomatch hop

/-- Witness for C5: absent metadata classifies as non-standalone, and the
route `{ component: Baz }` with `Baz` declared non-standalone gets no
scheduled operation. -/
theorem c5_witness :
    isStandaloneComponent none emptyTemplateTypeChecker = false ∧
    nonStandaloneRouteB c5Route c5TypeChecker c5TemplateTypeChecker = true ∧
    (∀ op ∈ migrateRoutesArray c5Array c5TypeChecker c5TemplateTypeChecker
        witnessGetSourceFile, opAnchor op ∉ preorder c5Route) :=
  ⟨c5_non_standalone_route_is_skipped.1 none emptyTemplateTypeChecker rfl,
   rfl,
   c5_non_standalone_route_is_skipped.2 c5Array c5TypeChecker c5TemplateTypeChecker
     witnessGetSourceFile c5Route (List.mem_singleton.mpr rfl) rfl⟩

/-- C6: in the change set returned by the tracker — and hence by the whole
migration run — every file's edits are sorted by start offset and pairwise
non-overlapping. -/
theorem c6_changes_by_file_sorted_and_disjoint :
    (∀ (printer : Printer) (program : NgtscProgram) (ops : List TrackedOp)
      (m : ChangesByFile), recordChanges printer program ops = Except.ok m →
      ∀ fe ∈ m, List.Pairwise startLE fe.2 ∧ List.Pairwise notOverlap fe.2) ∧
    (∀ (sourceFiles : List SourceFile) (program : NgtscProgram) (printer : Printer)
      (m : ChangesByFile), toLazyStandaloneRoutes sourceFiles program printer = Except.ok m →
      ∀ fe ∈ m, List.Pairwise startLE fe.2 ∧ List.Pairwise notOverlap fe.2) := by
  refine ⟨fun _ _ _ _ h => recordChanges_ok_sorted h, ?_⟩
  intro sourceFiles program printer m h
  unfold toLazyStandaloneRoutes at h
  split at h
  · nomatch h
  · exact recordChanges_ok_sorted h

/-- Witness for C6: two removals scheduled in decreasing start order are
recorded sorted and non-overlapping. -/
theorem c6_witness :
    recordChanges nullPrinter c6Program c6Ops = Except.ok c6Expected ∧
    (∀ fe ∈ c6Expected, List.Pairwise startLE fe.2 ∧ List.Pairwise notOverlap fe.2) :=
  ⟨rfl, c6_changes_by_file_sorted_and_disjoint.1 nullPrinter c6Program c6Ops c6Expected rfl⟩

/-- C7: every candidate the locator records is an array literal — calls whose
route argument is an indirection are skipped — and in particular the scenario
`router.resetConfig(someRoutesArray)` with an identifier argument yields zero
candidate arrays. -/
theorem c7_non_array_argument_yields_no_candidate :
    (∀ (sf : SourceFile) (typeChecker : TypeChecker) (l : List Node),
      findRoutesArrayToMigrate sf typeChecker = Except.ok l →
      ∀ a ∈ l, isArrayLiteralExpression a = true) ∧
    findRoutesArrayToMigrate c7File c7TypeChecker = Except.ok [] :=
  ⟨fun _ _ _ h a ha => (visitAll_ok_mem h a ha).1, rfl⟩

/-- Witness for C7: a file whose recognized call does carry an inline array
literal produces that array as its sole candidate, and it is an array
literal. -/
theorem c7_witness :
    findRoutesArrayToMigrate c7wFile c7wTypeChecker = Except.ok [c7wArray] ∧
    isArrayLiteralExpression c7wArray = true :=
  ⟨rfl, c7_non_array_argument_yields_no_candidate.1 c7wFile c7wTypeChecker [c7wArray] rfl
    c7wArray (List.mem_singleton.mpr rfl)⟩

/-- C8's counterexample: the claim says `findRoutesArrayToMigrate` returns
normally for every source file, including when a recognized registration call
has zero arguments.  On the file containing `provideRouter()`, the walk
evaluates `ts.isArrayLiteralExpression(node.arguments[0])` with
`node.arguments[0] === undefined` and raises a `TypeError`. -/
theorem c8_counterexample_zero_argument_call_raises :
    findRoutesArrayToMigrate c8File c8TypeChecker = Except.error undefinedKindTypeError :=
  rfl

/-- C8, amended: `findRoutesArrayToMigrate` returns normally for every source
file in which every recognized route-registration call has at least one
argument. -/
theorem c8_total_when_recognized_calls_have_arguments (sf : SourceFile)
    (typeChecker : TypeChecker)
    (h : ∀ n ∈ preorderList sf.statements,
      recognizedCallB n typeChecker = true → argumentsOf n ≠ []) :
    ∃ l, findRoutesArrayToMigrate sf typeChecker = Except.ok l :=
  visitAll_ok_of_args h

/-- Witness for the amended C8: a file whose sole recognized call carries one
argument. -/
theorem c8_witness :
    ∃ l, findRoutesArrayToMigrate c7wFile c7wTypeChecker = Except.ok l := by
  refine c8_total_when_recognized_calls_have_arguments c7wFile c7wTypeChecker ?_
  have heq : preorderList c7wFile.statements
      = [c7wCall, Node.identifier ⟨72, 85⟩ "provideRouter", c7wArray] := rfl
  rw [heq]
  intro n hn hrec
  simp only [List.mem_cons, List.mem_singleton, List.not_mem_nil, or_false] at hn
  rcases hn with rfl | rfl | rfl
  · simp [c7wCall, argumentsOf]
  · exact absurd hrec (by decide)
  · exact absurd hrec (by decide)

/-- C9: `findClassDeclaration` is total — it returns `none` rather than
raising when the type at the reference has no symbol or the symbol has no
declarations — and otherwise returns the first class declaration among the
symbol's declarations (`none` when none is a class declaration). -/
theorem c9_findClassDeclaration_characterization (reference : Node)
    (typeChecker : TypeChecker) :
    findClassDeclaration reference typeChecker =
      ((typeChecker.getTypeAtLocation reference).getSymbol.bind TsSymbol.declarations).bind
        (fun decls => decls.find? isClassDeclaration) := by
  cases hsym : (typeChecker.getTypeAtLocation reference).getSymbol with
  | none => simp [findClassDeclaration, hsym]
  | some s =>
    cases hdecl : s.declarations with
    | none => simp [findClassDeclaration, hsym, hdecl]
    | some decls => simp [findClassDeclaration, hsym, hdecl]

/-- C10: every element returned by `findRoutesArrayToMigrate` is an array
literal and occurs as the first argument of some call expression among the
nodes of the given source file. -/
theorem c10_candidates_are_first_array_arguments (sf : SourceFile)
    (typeChecker : TypeChecker) (l : List Node)
    (h : findRoutesArrayToMigrate sf typeChecker = Except.ok l) :
    ∀ a ∈ l, isArrayLiteralExpression a = true ∧
      ∃ c ∈ preorderList sf.statements, isCallExpression c = true ∧
        (argumentsOf c).head? = some a :=
  visitAll_ok_mem h

/-- Identifier `RouterModule` of the C10 witness call. -/
def routerModuleIdent : Node := .identifier ⟨100, 112⟩ "RouterModule"

/-- Array literal passed to `RouterModule.forRoot` in the C10 witness. -/
def c10Array : Node := .arrayLiteral ⟨121, 123⟩ []

/-- The call `RouterModule.forRoot([])` of the C10 witness. -/
def c10Call : Node :=
  .callExpression ⟨100, 124⟩
    (.propertyAccess ⟨100, 120⟩ routerModuleIdent (.identifier ⟨113, 120⟩ "forRoot")) [c10Array]

/-- Source file of the C10 witness. -/
def c10File : SourceFile := ⟨"/app/c10.ts", [c10Call]⟩

/-- Type checker of the C10 witness: `RouterModule` resolves to the framework
symbol of the same name. -/
def c10TypeChecker : TypeChecker where
  getSymbolAtLocation := fun n =>
    match n with
    | .identifier _ "RouterModule" => some ⟨"RouterModule", none⟩
    | _ => none
  getTypeAtLocation := fun _ => ⟨none⟩

/-- Witness for C10 on the `RouterModule.forRoot([])` file. -/
theorem c10_witness :
    isArrayLiteralExpression c10Array = true ∧
    ∃ c ∈ preorderList c10File.statements, isCallExpression c = true ∧
      (argumentsOf c).head? = some c10Array :=
  c10_candidates_are_first_array_arguments c10File c10TypeChecker [c10Array] rfl
    c10Array (List.mem_singleton.mpr rfl)
